import Mathlib

/-!
Verification of the Webfleet GPS API server (`webfleet_server.py`).

The Python program is shallowly embedded:

* JSON-like Python values (the payloads intercepted from the remote portal)
  are the inductive type `JVal`; machine floats are idealised as exact
  rationals `ℚ` (no claim under scrutiny depends on binary rounding of
  floats).
* fallible Python code is embedded in `Except PyErr`; each primitive
  (`pySubscript`, `pyGet`, `pyStrip`, ...) raises exactly where the
  corresponding Python operation raises (`KeyError`, `TypeError`,
  `AttributeError`).
* `datetime.now()` is passed explicitly as a rational timestamp; the
  library function `datetime.isoformat` is modelled only through the
  property the program uses (a non-empty string rendering).
* `urllib.parse.urlparse`/`parse_qs` are modelled for query strings whose
  characters are unaffected by percent/plus decoding (the handlers under
  scrutiny are applied to such strings).
-/

/-- A Python/JSON value as handled by the scraper and the HTTP handlers. -/
inductive JVal where
  | null
  | bool (b : Bool)
  | num (q : ℚ)
  | str (s : String)
  | arr (xs : List JVal)
  | obj (kvs : List (String × JVal))

/-- The exception classes the embedded code can raise. -/
inductive PyErr where
  | keyError
  | typeError
  | attributeError
deriving DecidableEq

/-- Python truthiness (`bool(v)`) for the embedded values. -/
def pyTruthy : JVal → Bool
  | .null => false
  | .bool b => b
  | .num q => decide (q ≠ 0)
  | .str s => !s.data.isEmpty
  | .arr xs => !xs.isEmpty
  | .obj kvs => !kvs.isEmpty

/-- Is the value a dict (`isinstance(v, dict)`)? -/
def isDict : JVal → Bool
  | .obj _ => true
  | _ => false

/-- Values that Python cannot use as dict keys (lists and dicts are unhashable). -/
def isUnhashable : JVal → Bool
  | .arr _ => true
  | .obj _ => true
  | _ => false

/-- Key normalisation for Python dict keys: `True == 1` and `False == 0`,
so booleans collapse onto numbers. -/
def keyNorm : JVal → JVal
  | .bool b => .num (if b then 1 else 0)
  | v => v

/-- Python `==` restricted to hashable (scalar) keys, as used for dict lookup. -/
def keyEq (a b : JVal) : Bool :=
  match keyNorm a, keyNorm b with
  | .null, .null => true
  | .num p, .num q => decide (p = q)
  | .str s, .str t => decide (s = t)
  | _, _ => false

/-- First-match lookup in a JSON object's key/value list (JSON objects have
unique keys, so first match is the match). -/
def dictLookup (kvs : List (String × JVal)) (k : String) : Option JVal :=
  (kvs.find? (fun p => p.1 == k)).map (fun p => p.2)

/-- `v[k]` for a string key: `KeyError` when the key is absent from a dict,
`TypeError` when `v` is not a dict. -/
def pySubscript (v : JVal) (k : String) : Except PyErr JVal :=
  match v with
  | .obj kvs =>
    match dictLookup kvs k with
    | some x => .ok x
    | none => .error .keyError
  | _ => .error .typeError

/-- `v.get(k, d)`: total on dicts, `AttributeError` on anything else. -/
def pyGet (v : JVal) (k : String) (d : JVal) : Except PyErr JVal :=
  match v with
  | .obj kvs => .ok ((dictLookup kvs k).getD d)
  | _ => .error .attributeError

/-- `v.get(k, d)` applied where `v` is already known to be a dict
(the non-dict case is unreachable behind an `isinstance` guard). -/
def jgetD (v : JVal) (k : String) (d : JVal) : JVal :=
  match v with
  | .obj kvs => (dictLookup kvs k).getD d
  | _ => d

/-- `v.get(k)` (default `None`) behind an `isinstance(v, dict)` guard. -/
def jget (v : JVal) (k : String) : JVal :=
  jgetD v k .null

/-- `s.strip()` on the character list: drop whitespace at both ends. -/
def stripChars (l : List Char) : List Char :=
  ((l.dropWhile Char.isWhitespace).reverse.dropWhile Char.isWhitespace).reverse

/-- `v.strip()`: string values are trimmed, everything else (for example the
`None` of a `null` licensePlate) raises `AttributeError`. -/
def pyStrip : JVal → Except PyErr String
  | .str s => .ok (String.mk (stripChars s.data))
  | _ => .error .attributeError

/-- `v / 100` as in `obj.get("odometer", 0) / 100`: numbers (and booleans,
which Python treats as integers) divide, everything else raises `TypeError`. -/
def pyDiv100 : JVal → Except PyErr ℚ
  | .num q => .ok (q / 100)
  | .bool b => .ok ((if b then 1 else 0) / 100)
  | _ => .error .typeError

/-- `v > 0` against the integer `0`: defined for numbers and booleans,
`TypeError` otherwise. -/
def pyGtZero : JVal → Except PyErr Bool
  | .num q => .ok (decide (0 < q))
  | .bool b => .ok b
  | _ => .error .typeError

/-- Total variant of `v > 0` used to describe the successful runs. -/
def pyGtZeroB : JVal → Bool
  | .num q => decide (0 < q)
  | .bool b => b
  | _ => false

/-- `v == 0`: Python equality never raises; non-numeric values are simply
not equal to `0`. -/
def pyEqZero : JVal → Bool
  | .num q => decide (q = 0)
  | .bool b => !b
  | _ => false

/-- `v == s` for a string `s` (Python equality, never raises). -/
def pyEqStr (v : JVal) (s : String) : Bool :=
  match v with
  | .str t => decide (t = s)
  | _ => false

/-- Iteration `for x in v`: lists yield their elements, strings their
characters, dicts their keys; other values raise `TypeError`. -/
def pyIter : JVal → Except PyErr (List JVal)
  | .arr xs => .ok xs
  | .str s => .ok (s.data.map (fun c => .str (String.mk [c])))
  | .obj kvs => .ok (kvs.map (fun p => .str p.1))
  | _ => .error .typeError

/-- Update an association map with Python dict-assignment semantics:
overwrite the value of an existing (equal) key, otherwise append. -/
def assocUpd (m : List (JVal × JVal)) (k v : JVal) : List (JVal × JVal) :=
  if m.any (fun p => keyEq p.1 k) then
    m.map (fun p => if keyEq p.1 k then (p.1, v) else p)
  else m ++ [(k, v)]

/-- Lookup in the association map built by the dict comprehension. -/
def assocGet (m : List (JVal × JVal)) (k : JVal) : Option JVal :=
  (m.find? (fun p => keyEq p.1 k)).map (fun p => p.2)

/-- `{t["objectId"]: t for t in telemetry}` — last write wins on duplicate
ids; a record without `objectId` raises `KeyError` (`TypeError` when it is
not a dict or its id is unhashable). -/
def buildTelemMap : List JVal → List (JVal × JVal) → Except PyErr (List (JVal × JVal))
  | [], acc => .ok acc
  | t :: ts, acc =>
    match pySubscript t "objectId" with
    | .error e => .error e
    | .ok k =>
      if isUnhashable k then .error .typeError
      else buildTelemMap ts (assocUpd acc k t)

/-- One canonical position record as appended by `get_positions`. -/
structure PositionRecord where
  object_id : JVal
  number : JVal
  name : JVal
  license_plate : String
  type : JVal
  latitude : JVal
  longitude : JVal
  address : JVal
  speed : JVal
  ignition : JVal
  stand_still : JVal
  last_gps_time : JVal
  odometer_km : ℚ

/-- The body of the `for obj in objects` loop of
`WebfleetScraper.get_positions`, evaluating the fields of the appended dict
in the source's order so that the first exception raised agrees with Python. -/
def mkRecord (tm : List (JVal × JVal)) (obj : JVal) : Except PyErr PositionRecord := do
  let oid ← pySubscript obj "objectId"
  if isUnhashable oid then .error .typeError
  else do
    let telem := (assocGet tm oid).getD (.obj [])
    let objPos ← pyGet obj "position" (.obj [])
    let pos0 ← pyGet telem "position" objPos
    let pos := if pyTruthy pos0 then pos0 else .obj []
    let object_id ← pyGet obj "objectId" .null
    let number ← pyGet obj "number" (.str "")
    let name ← pyGet obj "name" (.str "")
    let lp ← pyGet obj "licensePlate" (.str "")
    let license_plate ← pyStrip lp
    let ty ← pyGet obj "type" (.str "")
    let latitude := if isDict pos then jget pos "latitude" else .null
    let longitude := if isDict pos then jget pos "longitude" else .null
    let address ←
      if isDict pos then
        pyGet (jgetD pos "location" (.obj [])) "address" (.str "")
      else do
        let ld ← pyGet obj "locationDescription" (.obj [])
        pyGet ld "address" (.str "")
    let speed ← pyGet telem "speed" (.num 0)
    let ignition ← pyGet telem "ignition" (.str "UNKNOWN")
    let stand_still ← pyGet telem "standStill" (.bool false)
    let t0 := if isDict pos then jget pos "time" else .null
    let last_gps_time ←
      if pyTruthy t0 then pure t0 else pyGet obj "lastGpsTime" (.str "")
    let od ← pyGet obj "odometer" (.num 0)
    let odometer_km ← pyDiv100 od
    pure { object_id, number, name, license_plate, type := ty, latitude,
           longitude, address, speed, ignition, stand_still, last_gps_time,
           odometer_km }

/-- Effectful map mirroring the accumulation of `positions.append(...)`:
the first exception aborts the whole call. -/
def mapE (f : α → Except PyErr β) : List α → Except PyErr (List β)
  | [] => .ok []
  | x :: xs =>
    match f x with
    | .error e => .error e
    | .ok y =>
      match mapE f xs with
      | .error e => .error e
      | .ok ys => .ok (y :: ys)

/-- `WebfleetScraper.get_positions`, the reconciler.  Its inputs are the two
raw stream values stored in `intercepted_data` (`None` when nothing was
intercepted yet). -/
def get_positions (objectsRaw telemetryRaw : JVal) : Except PyErr (List PositionRecord) :=
  let objects := if pyTruthy objectsRaw then objectsRaw else .arr []
  let telemetry := if pyTruthy telemetryRaw then telemetryRaw else .arr []
  if !pyTruthy objects then .ok []
  else do
    let ts ← pyIter telemetry
    let tm ← buildTelemMap ts []
    let objs ← pyIter objects
    mapE (mkRecord tm) objs

/-- Success test for the error monad. -/
def isOkE : Except PyErr α → Bool
  | .ok _ => true
  | .error _ => false

/-! ## The cache (`DataCache`): thread-safe snapshot store.

The lock only serialises the in-memory reads/writes; each operation is a
pure state transition here, with `datetime.now()` supplied explicitly. -/

/-- State of the `DataCache` singleton. -/
structure DataCache where
  positions : List PositionRecord
  last_update : Option ℚ
  error : Option String
  login_count : Nat
  refresh_count : Nat

/-- The cache as constructed at startup. -/
def DataCache.start : DataCache :=
  { positions := [], last_update := none, error := none,
    login_count := 0, refresh_count := 0 }

/-- `DataCache.update(positions)` at time `now`. -/
def DataCache.update (c : DataCache) (ps : List PositionRecord) (now : ℚ) : DataCache :=
  { c with positions := ps, last_update := some now, error := none,
           refresh_count := c.refresh_count + 1 }

/-- `DataCache.set_error(error)`; `str(error)` is already a string here. -/
def DataCache.set_error (c : DataCache) (e : String) : DataCache :=
  { c with error := some e }

/-- Rendering of a timestamp by `datetime.isoformat`.  Modelled from the
spec: only its non-emptiness matters to the program (truthiness in the
health check), so any injective non-empty rendering is faithful. -/
def isoformat (t : ℚ) : String :=
  String.mk ('t' :: (toString t).data)

/-- Round-half-to-even on an exact rational, the rounding Python's
`round` uses. -/
def roundHalfEven (y : ℚ) : ℤ :=
  let f := ⌊y⌋
  let r := y - (f : ℚ)
  if r < 1 / 2 then f
  else if 1 / 2 < r then f + 1
  else if f % 2 = 0 then f else f + 1

/-- `round(x, 1)` on the idealised (exact) rational value. -/
def pyRound1 (x : ℚ) : ℚ :=
  (roundHalfEven (x * 10) : ℚ) / 10

/-- The dict returned by `DataCache.get()`. -/
structure SnapshotView where
  positions : List PositionRecord
  count : Nat
  last_update : Option String
  cache_age_seconds : Option ℚ
  error : Option String

/-- `DataCache.get()` at time `now`.  Note the source computes
`round(age, 1) if age else None`: a zero `age` is falsy, so the rounded
age is reported as `None` even though `last_update` is set. -/
def DataCache.get (c : DataCache) (now : ℚ) : SnapshotView :=
  let age : Option ℚ :=
    match c.last_update with
    | some t => some (now - t)
    | none => none
  { positions := c.positions
    count := c.positions.length
    last_update := c.last_update.map isoformat
    cache_age_seconds :=
      match age with
      | some a => if a = 0 then none else some (pyRound1 a)
      | none => none
    error := c.error }

/-- The dict returned by `DataCache.stats()`. -/
structure StatsView where
  login_count : Nat
  refresh_count : Nat
  vehicle_count : Nat
  last_update : Option String
  error : Option String

/-- `DataCache.stats()`. -/
def DataCache.stats (c : DataCache) : StatsView :=
  { login_count := c.login_count
    refresh_count := c.refresh_count
    vehicle_count := c.positions.length
    last_update := c.last_update.map isoformat
    error := c.error }

/-! ## URL parsing (`urllib.parse`), modelled at the interface.

Percent- and plus-decoding are modelled as the identity; the theorems only
apply the handlers to query strings made of characters unaffected by
decoding. -/

/-- Split a character list at the first occurrence of `sep`;
`none` when `sep` does not occur. -/
def splitFirst (sep : Char) : List Char → Option (List Char × List Char)
  | [] => none
  | c :: cs =>
    if c = sep then some ([], cs)
    else
      match splitFirst sep cs with
      | none => none
      | some (a, b) => some (c :: a, b)

/-- Split a character list on every occurrence of `sep`. -/
def splitOnChar (sep : Char) : List Char → List (List Char)
  | [] => [[]]
  | c :: cs =>
    match splitOnChar sep cs with
    | [] => [[c]]
    | h :: t => if c = sep then [] :: h :: t else (c :: h) :: t

/-- `urlparse(p)` reduced to the pair (path, query): the fragment after the
first `#` is dropped, the query follows the first `?`. -/
def urlsplitPathQuery (p : String) : String × String :=
  let noFrag :=
    match splitFirst '#' p.data with
    | none => p.data
    | some (a, _) => a
  match splitFirst '?' noFrag with
  | none => (String.mk noFrag, "")
  | some (a, b) => (String.mk a, String.mk b)

/-- One `name=value` chunk of `parse_qsl` with the default
`keep_blank_values=False`: chunks without `=` or with an empty value are
skipped. -/
def parsePair (chunk : List Char) : Option (String × String) :=
  if chunk.isEmpty then none
  else
    match splitFirst '=' chunk with
    | none => none
    | some (n, v) => if v.isEmpty then none else some (String.mk n, String.mk v)

/-- `parse_qs` flattened to its ordered pair list. -/
def parseQsl (q : String) : List (String × String) :=
  (splitOnChar '&' q.data).filterMap parsePair

/-- `params.get(k, [None])[0]`: the first value supplied for `k`. -/
def getFirst (params : List (String × String)) (k : String) : Option String :=
  (params.find? (fun q => q.1 == k)).map (fun q => q.2)

/-! ## HTTP handlers (`APIHandler`). -/

/-- An inbound request as the handler sees it: `self.path` (with query
string) and the `Authorization` header (`""` when absent). -/
structure Request where
  path : String
  authHeader : String

/-- `s.startswith(p)`. -/
def strStartsWith (s p : String) : Bool :=
  p.data.isPrefixOf s.data

/-- `s[n:]`. -/
def strDrop (s : String) (n : Nat) : String :=
  String.mk (s.data.drop n)

/-- `s.upper()` (the plates under scrutiny are ASCII). -/
def strUpper (s : String) : String :=
  String.mk (s.data.map Char.toUpper)

/-- Contiguous-sublist test on character lists. -/
def listInfix (sub : List Char) : List Char → Bool
  | [] => sub.isEmpty
  | c :: cs => sub.isPrefixOf (c :: cs) || listInfix sub cs

/-- `sub in hay` on strings: contiguous substring containment
(`"" in hay` is `True`). -/
def strContains (hay sub : String) : Bool :=
  listInfix sub.data hay.data

/-- `secrets.compare_digest`: functionally plain string equality (its
constant-time execution is a timing property outside the embedding). -/
def pyCompareDigest (a b : String) : Bool :=
  decide (a = b)

/-- Truthiness of `params.get(...)[0]`-style optional strings
(`None` and `""` are falsy). -/
def optStrTruthy : Option String → Bool
  | none => false
  | some s => !s.data.isEmpty

/-- `APIHandler.check_auth` with the configured `API_KEY`. -/
def check_auth (apiKey : String) (req : Request) : Bool :=
  if apiKey.data.isEmpty then true
  else if strStartsWith req.authHeader "Bearer " &&
          pyCompareDigest (strDrop req.authHeader 7) apiKey then true
  else
    match getFirst (parseQsl (urlsplitPathQuery req.path).2) "api_key" with
    | none => false
    | some k => !k.data.isEmpty && pyCompareDigest k apiKey

/-- The JSON bodies the handler can send, kept structured. -/
inductive Body where
  | snapshot (v : SnapshotView)
  | health (status : String) (s : StatsView)
  | stats (s : StatsView)
  | errorMsg (msg : String)
  | notFound
  | empty

/-- The 401 body sent on failed authentication. -/
def unauthorizedMsg : String :=
  "Unauthorized. Use \x27Authorization: Bearer <API_KEY>\x27 header"

/-- The `/positions/vehicle` filter: `if plate: ... elif number: ...`. -/
def vehicleFilter (plate number : Option String) (ps : List PositionRecord) :
    List PositionRecord :=
  if optStrTruthy plate then
    ps.filter (fun p => strContains (strUpper p.license_plate) (strUpper (plate.getD "")))
  else if optStrTruthy number then
    ps.filter (fun p => pyEqStr p.number (number.getD ""))
  else ps

/-- The `/positions/moving` predicate
`not p["stand_still"] or p["speed"] > 0`; comparison with `0` can raise. -/
def movingPred (p : PositionRecord) : Except PyErr Bool :=
  if !pyTruthy p.stand_still then .ok true
  else pyGtZero p.speed

/-- Total description of `movingPred` on records whose fields are
deterministic (boolean/numeric). -/
def movingB (p : PositionRecord) : Bool :=
  !pyTruthy p.stand_still || pyGtZeroB p.speed

/-- The `/positions/stopped` predicate
`p["stand_still"] and p["speed"] == 0` (never raises). -/
def stoppedB (p : PositionRecord) : Bool :=
  pyTruthy p.stand_still && pyEqZero p.speed

/-- Effectful filter mirroring a list comprehension whose condition can
raise: the first exception aborts the request. -/
def filterE (f : α → Except PyErr Bool) : List α → Except PyErr (List α)
  | [] => .ok []
  | x :: xs =>
    match f x with
    | .error e => .error e
    | .ok b =>
      match filterE f xs with
      | .error e => .error e
      | .ok ys => .ok (if b then x :: ys else ys)

/-- The `/positions/moving` route applied to a snapshot view. -/
def movingFilterView (v : SnapshotView) : Except PyErr SnapshotView :=
  match filterE movingPred v.positions with
  | .error e => .error e
  | .ok ps => .ok { v with positions := ps, count := ps.length }

/-- The `/positions/stopped` route applied to a snapshot view. -/
def stoppedFilterView (v : SnapshotView) : SnapshotView :=
  let ps := v.positions.filter stoppedB
  { v with positions := ps, count := ps.length }

/-- `APIHandler.do_GET` against cache state `c` at time `now`.  The
uncaught exceptions of the moving/stopped comprehensions surface as
`Except.error`. -/
def do_GET (apiKey : String) (c : DataCache) (now : ℚ) (req : Request) :
    Except PyErr (Nat × Body) :=
  if req.path == "/health" then
    let data := c.stats
    let st :=
      if optStrTruthy data.last_update && !optStrTruthy data.error
      then "healthy" else "unhealthy"
    .ok (200, .health st data)
  else if !check_auth apiKey req then
    .ok (401, .errorMsg unauthorizedMsg)
  else
    let pq := urlsplitPathQuery req.path
    let params := parseQsl pq.2
    if pq.1 == "/positions" || pq.1 == "/" then
      .ok (200, .snapshot (c.get now))
    else if pq.1 == "/positions/vehicle" then
      let data := c.get now
      let ps := vehicleFilter (getFirst params "plate") (getFirst params "number")
                  data.positions
      .ok (200, .snapshot { data with positions := ps, count := ps.length })
    else if pq.1 == "/positions/moving" then
      match movingFilterView (c.get now) with
      | .error e => .error e
      | .ok v => .ok (200, .snapshot v)
    else if pq.1 == "/positions/stopped" then
      .ok (200, .snapshot (stoppedFilterView (c.get now)))
    else if pq.1 == "/stats" then
      .ok (200, .stats c.stats)
    else
      .ok (404, .notFound)

/-- `APIHandler.do_HEAD`: only `/health` is implemented; no authentication
is performed for any path. -/
def do_HEAD (c : DataCache) (req : Request) : Nat × Body :=
  if req.path == "/health" then
    let data := c.stats
    (if optStrTruthy data.last_update && !optStrTruthy data.error then 200 else 503,
     .empty)
  else (404, .empty)

/-- `APIHandler.do_OPTIONS`: CORS preflight, always 200, no body, no
authentication. -/
def do_OPTIONS : Nat × Body :=
  (200, .empty)

/-! ## Well-formedness of raw records.

`get_positions` does raise on some malformed records; these decidable
predicates delimit a class of inputs on which it provably cannot. -/

/-- A `location`/`locationDescription` entry that the `.get("address", "")`
chain can consume: absent, or a dict. -/
def locOk : Option JVal → Bool
  | none => true
  | some (.obj _) => true
  | some _ => false

/-- The record's `position`, when it is a dict, must not carry a non-dict
`location` (non-dict positions are harmless: they are guarded by
`isinstance` checks). -/
def posFieldOk (kvs : List (String × JVal)) : Bool :=
  match dictLookup kvs "position" with
  | some (.obj pkvs) => locOk (dictLookup pkvs "location")
  | _ => true

/-- A telemetry record `get_positions` cannot raise on: a dict with a
hashable `objectId` and a consumable `position`. -/
def wfTelemRec : JVal → Bool
  | .obj kvs =>
    (match dictLookup kvs "objectId" with
     | some k => !isUnhashable k
     | none => false) && posFieldOk kvs
  | _ => false

/-- An object record `get_positions` cannot raise on: a dict with a
hashable `objectId`, a string-or-absent `licensePlate`, a numeric-or-absent
`odometer`, and consumable `locationDescription`/`position` fields. -/
def wfObjRec : JVal → Bool
  | .obj kvs =>
    (match dictLookup kvs "objectId" with
     | some k => !isUnhashable k
     | none => false) &&
    (match dictLookup kvs "licensePlate" with
     | some (.str _) => true
     | none => true
     | some _ => false) &&
    (match dictLookup kvs "odometer" with
     | some (.num _) => true
     | some (.bool _) => true
     | none => true
     | some _ => false) &&
    locOk (dictLookup kvs "locationDescription") &&
    posFieldOk kvs
  | _ => false

/-- The rational value `odometer / 100` takes on the values on which the
division succeeds (Python treats booleans as integers). -/
def odoRat : JVal → ℚ
  | .num q => q / 100
  | .bool b => (if b then 1 else 0) / 100
  | _ => 0

/-- Is the value a Python bool? -/
def isBoolJ : JVal → Bool
  | .bool _ => true
  | _ => false

/-- Is the value a number? -/
def isNumJ : JVal → Bool
  | .num _ => true
  | _ => false

/-! ## Concrete sample data used by witnesses and counterexamples. -/

/-- A cache that has seen one successful update at time 3. -/
def c5cache : DataCache :=
  DataCache.start.update [] 3

/-- An object record with a duplicated identity in the counterexample list. -/
def dupObj : JVal :=
  .obj [("objectId", .str "A")]

/-- A minimal well-formed object record with an odometer reading. -/
def c3obj : JVal :=
  .obj [("objectId", .str "A"), ("odometer", .num 15050)]

/-- The position record `get_positions` produces for `c3obj` with no
matching telemetry. -/
def c3rec : PositionRecord :=
  { object_id := .str "A", number := .str "", name := .str "",
    license_plate := "", type := .str "", latitude := .null,
    longitude := .null, address := .str "", speed := .num 0,
    ignition := .str "UNKNOWN", stand_still := .bool false,
    last_gps_time := .str "", odometer_km := (15050 : ℚ) / 100 }

/-- A deterministic sample record for the filter-law witness. -/
def sampleRec (ss : Bool) (sp : ℚ) : PositionRecord :=
  { object_id := .str "A", number := .str "1", name := .str "n",
    license_plate := "AB-123", type := .str "", latitude := .null,
    longitude := .null, address := .str "", speed := .num sp,
    ignition := .str "UNKNOWN", stand_still := .bool ss,
    last_gps_time := .str "", odometer_km := 0 }

/-- A snapshot view with one moving, one stopped and one ambiguous record
(`stand_still = False`, `speed = 0`, which the moving filter takes). -/
def sampleView : SnapshotView :=
  { positions := [sampleRec false 42, sampleRec true 0, sampleRec false 0],
    count := 3, last_update := none, cache_age_seconds := none, error := none }

/-! ## The C1 resolution rule, stated from the amended claim's words. -/

/-- The resolved position entry of the amended C1 claim: the matched
telemetry record's `position` entry whenever that key is present — even a
null or otherwise falsy entry — and otherwise the object's own `position`
entry (defaulting to the empty dict). -/
def resolvedPosEntry (tkvs kvs : List (String × JVal)) : JVal :=
  (dictLookup tkvs "position").getD ((dictLookup kvs "position").getD (.obj []))

/-- The resolved position after the falsy coercion (`... or {}`): a falsy
entry is replaced by the empty dict, without falling back to the object. -/
def resolvedPos (tkvs kvs : List (String × JVal)) : JVal :=
  if pyTruthy (resolvedPosEntry tkvs kvs) then resolvedPosEntry tkvs kvs
  else .obj []

/-- The per-record resolution rule of the amended C1 claim, relative to a
raw telemetry stream.  For the telemetry map built from the stream and the
record's matched telemetry dict `tkvs`: latitude, longitude and the
address (read through `location`, defaulting to the empty string) come
from the resolved position exactly when it is a dict; otherwise latitude
and longitude are null and the address comes from the object's own
`locationDescription` — and the resolved position fails to be a dict
exactly when the resolved entry is truthy and not a dict. -/
def resolutionSpec (telemetry : List JVal) (o : JVal) (r : PositionRecord) : Prop :=
  ∀ tm kvs oid tkvs,
    buildTelemMap telemetry [] = .ok tm →
    o = JVal.obj kvs →
    dictLookup kvs "objectId" = some oid →
    (assocGet tm oid).getD (.obj []) = .obj tkvs →
    (isDict (resolvedPos tkvs kvs) = true →
      r.latitude = jget (resolvedPos tkvs kvs) "latitude" ∧
      r.longitude = jget (resolvedPos tkvs kvs) "longitude" ∧
      r.address = jgetD (jgetD (resolvedPos tkvs kvs) "location" (.obj []))
        "address" (.str "")) ∧
    (isDict (resolvedPos tkvs kvs) = false →
      r.latitude = .null ∧ r.longitude = .null ∧
      r.address = jgetD (jgetD (JVal.obj kvs) "locationDescription" (.obj []))
        "address" (.str "")) ∧
    (isDict (resolvedPos tkvs kvs) = false ↔
      pyTruthy (resolvedPosEntry tkvs kvs) = true ∧
      isDict (resolvedPosEntry tkvs kvs) = false)

/-- An object record whose truthy non-dict `position` (a string) forces
the `locationDescription` fallback through the object's own entry. -/
def c1obj : JVal :=
  .obj [("objectId", .str "A"), ("position", .str "x"),
        ("locationDescription", .obj [("address", .str "X")])]

/-- A matched telemetry record without a `position` key. -/
def c1tel : JVal :=
  .obj [("objectId", .str "A")]

/-- The record `get_positions` produces for `c1obj` matched with `c1tel`:
null coordinates and the `locationDescription` address. -/
def c1rec : PositionRecord :=
  { object_id := .str "A", number := .str "", name := .str "",
    license_plate := "", type := .str "", latitude := .null,
    longitude := .null, address := .str "X", speed := .num 0,
    ignition := .str "UNKNOWN", stand_still := .bool false,
    last_gps_time := .str "", odometer_km := (0 : ℚ) / 100 }

/-! ## Helper lemmas. -/

theorem str_ne_empty_data (s : String) (h : s ≠ "") : s.data.isEmpty = false := by
  cases s with
  | mk data =>
    cases data with
    | nil => exact absurd rfl h
    | cons c cs => rfl

theorem optStrTruthy_map_isoformat (o : Option ℚ) :
    optStrTruthy (o.map isoformat) = o.isSome := by
  cases o <;> rfl

/-! ## Claims. -/

/-- C9: reconcile (`get_positions`) with a null/missing or empty objects
stream returns the empty sequence, whatever the telemetry stream holds. -/
theorem reconcile_empty_objects (t : JVal) :
    get_positions .null t = .ok [] ∧ get_positions (.arr []) t = .ok [] :=
  ⟨rfl, rfl⟩

/-- C6: `DataCache.update` replaces the positions wholesale, stamps
`last_update`, clears a prior error and increments `refresh_count` by
exactly one, while `DataCache.set_error` records the error and leaves
`positions`, `last_update`, `refresh_count` and `login_count` untouched. -/
theorem cache_update_set_error_frame (c : DataCache) (ps : List PositionRecord)
    (now : ℚ) (e : String) :
    (c.update ps now).error = none ∧
    (c.update ps now).refresh_count = c.refresh_count + 1 ∧
    (c.update ps now).last_update = some now ∧
    (c.update ps now).positions = ps ∧
    (c.update ps now).login_count = c.login_count ∧
    (c.set_error e).error = some e ∧
    (c.set_error e).positions = c.positions ∧
    (c.set_error e).last_update = c.last_update ∧
    (c.set_error e).refresh_count = c.refresh_count ∧
    (c.set_error e).login_count = c.login_count :=
  ⟨rfl, rfl, rfl, rfl, rfl, rfl, rfl, rfl, rfl, rfl⟩

/-- C5 (counterexample): a cache updated at time 3 and read at time 3 has a
non-null `last_update` yet reports `cache_age_seconds = null`, because the
source computes `round(age, 1) if age else None` and a zero elapsed time is
falsy; the claim says null is returned exactly when the cache was never
updated. -/
theorem cache_age_cex :
    (c5cache.get 3).cache_age_seconds = none ∧
    (c5cache.get 3).last_update = some (isoformat 3) := by
  constructor
  · simp [c5cache, DataCache.get, DataCache.update, DataCache.start]
  · rfl

/-- C5 (amended): `DataCache.get` reports `cache_age_seconds` as the
elapsed time since `last_update` rounded to one decimal, except that it is
null both when the cache was never updated and when the elapsed time is
exactly zero. -/
theorem cache_age_amended (c : DataCache) (now : ℚ) :
    ((c.get now).cache_age_seconds = none ↔
      (c.last_update = none ∨ c.last_update = some now)) ∧
    (∀ t, c.last_update = some t → now - t ≠ 0 →
      (c.get now).cache_age_seconds = some (pyRound1 (now - t))) := by
  constructor
  · cases h : c.last_update with
    | none => simp [DataCache.get, h]
    | some t =>
      simp only [DataCache.get, h]
      by_cases h0 : now - t = 0
      · have ht : t = now := by linarith [sub_eq_zero.mp h0]
        simp [h0, ht]
      · have ht : ¬t = now := fun he => h0 (by rw [he]; ring)
        simp [h0, ht]
  · intro t ht h0
    simp [DataCache.get, ht, h0]

/-- C5 (witness): at the concrete cache `c5cache` (updated at time 3), the
age is null when read at time 3 and `round(4, 1)` when read at time 7. -/
theorem cache_age_witness :
    (c5cache.get 3).cache_age_seconds = none ∧
    (c5cache.get 7).cache_age_seconds = some (pyRound1 (7 - 3)) :=
  ⟨(cache_age_amended c5cache 3).1.mpr (Or.inr rfl),
   (cache_age_amended c5cache 7).2 3 rfl (by norm_num)⟩

/-- C4 (counterexample): `GET /health` on a never-updated cache reports
`"unhealthy"` but responds with HTTP 200, not the 503 the claim requires
(only `HEAD` computes 503); and a cache holding the non-null error `""`
(possible via `set_error` on an exception with empty message) is reported
`"healthy"`, contradicting the claim's "error is null" condition. -/
theorem health_cex :
    do_GET "k" DataCache.start 0 ⟨"/health", ""⟩ =
      .ok (200, .health "unhealthy" DataCache.start.stats) ∧
    (do_HEAD DataCache.start ⟨"/health", ""⟩).1 = 503 ∧
    ((DataCache.start.update [] 5).set_error "").error ≠ none ∧
    do_GET "k" ((DataCache.start.update [] 5).set_error "") 0 ⟨"/health", ""⟩ =
      .ok (200, .health "healthy" ((DataCache.start.update [] 5).set_error "").stats) := by
  refine ⟨rfl, rfl, ?_, rfl⟩
  simp [DataCache.set_error, DataCache.update, DataCache.start]

/-- C4 (amended): `GET /health` and `HEAD /health` need no authentication;
the reported status is `"healthy"` iff `last_update` is non-null and
`error` is null or the empty string; `HEAD`'s HTTP status is 200 under the
same condition and 503 otherwise, while `GET /health` always answers
HTTP 200 (the 200-if-healthy-else-503 rule holds only for `HEAD`). -/
theorem health_amended (apiKey hdr : String) (c : DataCache) (now : ℚ) :
    (do_GET apiKey c now ⟨"/health", hdr⟩ =
        .ok (200, .health "healthy" c.stats) ↔
      (c.last_update ≠ none ∧ (c.error = none ∨ c.error = some ""))) ∧
    (do_GET apiKey c now ⟨"/health", hdr⟩ =
        .ok (200, .health "unhealthy" c.stats) ↔
      ¬(c.last_update ≠ none ∧ (c.error = none ∨ c.error = some ""))) ∧
    ((do_HEAD c ⟨"/health", hdr⟩).1 = 200 ↔
      (c.last_update ≠ none ∧ (c.error = none ∨ c.error = some ""))) ∧
    ((do_HEAD c ⟨"/health", hdr⟩).1 = 200 ∨ (do_HEAD c ⟨"/health", hdr⟩).1 = 503) := by
  have hcond :
      (optStrTruthy c.stats.last_update && !optStrTruthy c.stats.error) = true ↔
        (c.last_update ≠ none ∧ (c.error = none ∨ c.error = some "")) := by
    rw [show c.stats.last_update = c.last_update.map isoformat from rfl,
        show c.stats.error = c.error from rfl, optStrTruthy_map_isoformat]
    cases hl : c.last_update with
    | none => simp
    | some t =>
      cases he : c.error with
      | none => simp [optStrTruthy]
      | some s =>
        cases s with
        | mk data =>
          cases data with
          | nil => simp [optStrTruthy, String.ext_iff]
          | cons a as => simp [optStrTruthy, String.ext_iff]
  refine ⟨?_, ?_, ?_, ?_⟩
  · rw [show do_GET apiKey c now ⟨"/health", hdr⟩ =
        .ok (200, .health
          (if optStrTruthy c.stats.last_update && !optStrTruthy c.stats.error
           then "healthy" else "unhealthy") c.stats) from rfl]
    by_cases hb : (optStrTruthy c.stats.last_update && !optStrTruthy c.stats.error) = true
    · simp only [hb, if_true]
      simp [hcond.mp hb]
    · rw [if_neg hb]
      simp only [Except.ok.injEq, Prod.mk.injEq, Body.health.injEq]
      constructor
      · rintro ⟨-, h, -⟩
        exact absurd h.symm (by decide)
      · intro h
        exact absurd (hcond.mpr h) hb
  · rw [show do_GET apiKey c now ⟨"/health", hdr⟩ =
        .ok (200, .health
          (if optStrTruthy c.stats.last_update && !optStrTruthy c.stats.error
           then "healthy" else "unhealthy") c.stats) from rfl]
    by_cases hb : (optStrTruthy c.stats.last_update && !optStrTruthy c.stats.error) = true
    · simp only [hb, if_true]
      simp only [Except.ok.injEq, Prod.mk.injEq, Body.health.injEq]
      constructor
      · rintro ⟨-, h, -⟩
        exact absurd h (by decide)
      · intro h
        exact absurd (hcond.mp hb) h
    · simp only [hb, if_false]
      simp only [Except.ok.injEq, Prod.mk.injEq, Body.health.injEq, true_and, and_true]
      constructor
      · intro _ h
        exact absurd (hcond.mpr h) hb
      · intro _
        rfl
  · rw [show do_HEAD c ⟨"/health", hdr⟩ =
        ((if optStrTruthy c.stats.last_update && !optStrTruthy c.stats.error
          then 200 else 503), .empty) from rfl]
    by_cases hb : (optStrTruthy c.stats.last_update && !optStrTruthy c.stats.error) = true
    · simp [hb, hcond.mp hb]
    · rw [if_neg hb]
      simp only []
      constructor
      · intro h
        exact absurd h (by decide)
      · intro h
        exact absurd (hcond.mpr h) hb
  · rw [show do_HEAD c ⟨"/health", hdr⟩ =
        ((if optStrTruthy c.stats.last_update && !optStrTruthy c.stats.error
          then 200 else 503), .empty) from rfl]
    by_cases hb : (optStrTruthy c.stats.last_update && !optStrTruthy c.stats.error) = true
    · simp [hb]
    · simp [hb]

/-- C1 (counterexample): with no position on either stream the record's
address is the empty string even though the object carries a
`locationDescription` address `"X"` (the claim's fallback does not fire:
the source reads `locationDescription` only when the resolved position is
a truthy non-dict); and a telemetry record whose `position` key is present
but null shadows the object's embedded position, so latitude is null where
the claim requires the object's `latitude = 1` to be used. -/
theorem reconcile_resolution_cex :
    (get_positions
      (.arr [.obj [("objectId", .str "A"),
                   ("locationDescription", .obj [("address", .str "X")])]])
      (.arr [])).map (List.map (fun r => r.address)) = .ok [.str ""] ∧
    JVal.str "" ≠ JVal.str "X" ∧
    (get_positions
      (.arr [.obj [("objectId", .str "A"),
                   ("position", .obj [("latitude", .num 1)])]])
      (.arr [.obj [("objectId", .str "A"), ("position", .null)]])).map
      (List.map (fun r => r.latitude)) = .ok [.null] ∧
    JVal.null ≠ JVal.num 1 := by
  refine ⟨rfl, by simp, rfl, by simp⟩

theorem except_bind_ok (m : Except PyErr α) (f : α → Except PyErr β) (b : β) :
    (m >>= f = Except.ok b) ↔ ∃ a, m = Except.ok a ∧ f a = Except.ok b := by
  cases m with
  | error e => simp [Bind.bind, Except.bind]
  | ok a => simp [Bind.bind, Except.bind]

theorem ite_ok_iff {c : Prop} [Decidable c] (x y : Except PyErr α) (b : α) :
    ((if c then x else y) = Except.ok b) ↔
      ((c ∧ x = Except.ok b) ∨ (¬c ∧ y = Except.ok b)) := by
  split <;> simp [*]

theorem pure_eq_ok (a : α) : (pure a : Except PyErr α) = Except.ok a := rfl

theorem pyDiv100_ok_val (v : JVal) (q : ℚ) (h : pyDiv100 v = .ok q) :
    q = odoRat v := by
  cases v <;> simp [pyDiv100, odoRat] at h ⊢ <;> exact h.symm

theorem mkRecord_fields (tm : List (JVal × JVal)) (kvs : List (String × JVal))
    (r : PositionRecord) (h : mkRecord tm (.obj kvs) = .ok r) :
    r.object_id = (dictLookup kvs "objectId").getD .null ∧
    r.odometer_km = odoRat ((dictLookup kvs "odometer").getD (.num 0)) := by
  simp only [mkRecord, except_bind_ok, ite_ok_iff, pyGet, pure_eq_ok,
    Except.ok.injEq, exists_eq_left, exists_eq_left'] at h
  obtain ⟨oid, hoid, h⟩ := h
  rcases h with ⟨hu, hfalse⟩ | ⟨hu, h⟩
  · cases hfalse
  · obtain ⟨pos0, hpos0, h⟩ := h
    obtain ⟨lp, hlp, h⟩ := h
    rcases h with ⟨hd, h⟩ | ⟨hd, h⟩ <;>
    · obtain ⟨addr, haddr, h⟩ := h
      obtain ⟨spd, hspd, h⟩ := h
      obtain ⟨ign, hign, h⟩ := h
      obtain ⟨ss, hss, h⟩ := h
      rcases h with ⟨ht0, h⟩ | ⟨ht0, h⟩ <;>
      · obtain ⟨okm, hokm, h⟩ := h
        rw [← h]
        exact ⟨rfl, pyDiv100_ok_val _ _ hokm⟩

theorem mapE_forall₂ (f : α → Except PyErr β) (l : List α) (res : List β)
    (h : mapE f l = .ok res) :
    List.Forall₂ (fun a b => f a = .ok b) l res := by
  induction l generalizing res with
  | nil =>
    cases h
    exact List.Forall₂.nil
  | cons x xs ih =>
    unfold mapE at h
    cases hf : f x with
    | error e => rw [hf] at h; cases h
    | ok y =>
      rw [hf] at h
      cases hm : mapE f xs with
      | error e => rw [hm] at h; cases h
      | ok ys =>
        rw [hm] at h
        cases h
        exact List.Forall₂.cons hf (ih ys hm)

/-- C3 (counterexample): an object list repeating the single distinct
`objectId` `"A"` yields one record per list element — two records — where
the claim requires exactly one per distinct `objectId`. -/
theorem reconcile_shape_cex :
    (get_positions (.arr [dupObj, dupObj]) (.arr [])).map
      (List.map (fun r => r.object_id)) = .ok [.str "A", .str "A"] :=
  rfl

/-- C3 (amended): whenever reconcile succeeds it returns exactly one
PositionRecord per element of the object list (never dropping a record when
no matching telemetry exists), in the object list's order, the i-th record
carrying the i-th object's `objectId` and its `odometer` (default 0)
divided by 100. -/
theorem reconcile_shape_amended (objects telemetry : List JVal)
    (res : List PositionRecord)
    (h : get_positions (.arr objects) (.arr telemetry) = .ok res) :
    res.length = objects.length ∧
    List.Forall₂ (fun o r => ∀ kvs, o = JVal.obj kvs →
        r.object_id = (dictLookup kvs "objectId").getD .null ∧
        r.odometer_km = odoRat ((dictLookup kvs "odometer").getD (.num 0)))
      objects res := by
  unfold get_positions at h
  cases objects with
  | nil =>
    cases h
    exact ⟨rfl, List.Forall₂.nil⟩
  | cons o os =>
    simp only [pyTruthy, List.isEmpty_cons, Bool.not_false, if_true,
      Bool.not_true, Bool.false_eq_true, if_false, except_bind_ok] at h
    obtain ⟨ts, hts, h⟩ := h
    obtain ⟨tm, htm, h⟩ := h
    obtain ⟨objs, hobjs, h⟩ := h
    have hobjs' : objs = o :: os := by
      cases hpt : pyTruthy (.arr telemetry) <;>
        simp [hpt, pyIter] at hobjs <;> exact hobjs.symm
    rw [hobjs'] at h
    have hall := mapE_forall₂ (mkRecord tm) (o :: os) res h
    refine ⟨(List.Forall₂.length_eq hall).symm, ?_⟩
    refine List.Forall₂.imp ?_ hall
    intro a b hab kvs hk
    exact mkRecord_fields tm kvs b (hk ▸ hab)

/-- C3 (witness): one object with odometer 15050 and no telemetry gives one
record whose `object_id` is the object's id and whose `odometer_km` is
`15050 / 100`. -/
theorem reconcile_shape_witness :
    ([c3rec].length = [c3obj].length) ∧
    List.Forall₂ (fun o r => ∀ kvs, o = JVal.obj kvs →
        r.object_id = (dictLookup kvs "objectId").getD .null ∧
        r.odometer_km = odoRat ((dictLookup kvs "odometer").getD (.num 0)))
      [c3obj] [c3rec] :=
  reconcile_shape_amended [c3obj] [] [c3rec] rfl

theorem ok_bind (a : α) (f : α → Except PyErr β) :
    (Except.ok a >>= f : Except PyErr β) = f a := rfl

theorem locOk_obj (o : Option JVal) (h : locOk o = true) :
    ∃ lkvs, o.getD (.obj []) = JVal.obj lkvs := by
  cases o with
  | none => exact ⟨[], rfl⟩
  | some v => cases v <;> simp [locOk] at h <;> exact ⟨_, rfl⟩

theorem assocGet_telem (tm : List (JVal × JVal)) (k : JVal)
    (htm : ∀ p ∈ tm, ∃ tkvs, p.2 = JVal.obj tkvs ∧ posFieldOk tkvs = true) :
    ∃ tkvs, (assocGet tm k).getD (.obj []) = JVal.obj tkvs ∧ posFieldOk tkvs = true := by
  cases hg : assocGet tm k with
  | none => exact ⟨[], rfl, rfl⟩
  | some v =>
    have hv : ∃ p ∈ tm, p.2 = v := by
      unfold assocGet at hg
      cases hf : List.find? (fun p => keyEq p.1 k) tm with
      | none => rw [hf] at hg; cases hg
      | some p =>
        rw [hf] at hg
        simp at hg
        exact ⟨p, List.mem_of_find?_eq_some hf, hg⟩
    obtain ⟨p, hp, hpv⟩ := hv
    obtain ⟨tkvs, h1, h2⟩ := htm p hp
    refine ⟨tkvs, ?_, h2⟩
    rw [Option.getD_some, ← hpv, h1]

theorem mkRecord_ok (tm : List (JVal × JVal)) (kvs : List (String × JVal))
    (htm : ∀ p ∈ tm, ∃ tkvs, p.2 = JVal.obj tkvs ∧ posFieldOk tkvs = true)
    (ho : wfObjRec (.obj kvs) = true) :
    isOkE (mkRecord tm (.obj kvs)) = true := by
  have ho' := ho
  unfold wfObjRec at ho'
  simp only [Bool.and_eq_true] at ho'
  obtain ⟨⟨⟨⟨hid, hlp⟩, hod⟩, hld⟩, hpos⟩ := ho'
  cases hk : dictLookup kvs "objectId" with
  | none => rw [hk] at hid; cases hid
  | some k =>
  rw [hk] at hid
  simp only [Bool.not_eq_true'] at hid
  obtain ⟨tkvs, htel, hposT⟩ := assocGet_telem tm k htm
  have hsub : pySubscript (JVal.obj kvs) "objectId" = .ok k := by
    simp [pySubscript, hk]
  have hstrip : ∃ s, pyStrip ((dictLookup kvs "licensePlate").getD (.str "")) = .ok s := by
    cases hl : dictLookup kvs "licensePlate" with
    | none => exact ⟨_, rfl⟩
    | some v =>
      rw [hl] at hlp
      cases v <;> simp at hlp <;> exact ⟨_, rfl⟩
  have hdiv : ∃ q, pyDiv100 ((dictLookup kvs "odometer").getD (.num 0)) = .ok q := by
    cases hl : dictLookup kvs "odometer" with
    | none => exact ⟨_, rfl⟩
    | some v =>
      rw [hl] at hod
      cases v <;> simp at hod <;> exact ⟨_, rfl⟩
  obtain ⟨lp, hlpe⟩ := hstrip
  obtain ⟨q, hq⟩ := hdiv
  simp only [mkRecord, hsub, ok_bind, hid, Bool.false_eq_true, if_false, htel,
    pyGet, Option.getD_some, hlpe, hq]
  set p0 := (dictLookup tkvs "position").getD
    ((dictLookup kvs "position").getD (JVal.obj [])) with hp0
  set pos := (if pyTruthy p0 = true then p0 else JVal.obj []) with hposdef
  have hPosOk : ∀ pkvs, pos = JVal.obj pkvs →
      locOk (dictLookup pkvs "location") = true := by
    intro pkvs hp
    rw [hposdef] at hp
    by_cases ht : pyTruthy p0 = true
    · rw [if_pos ht] at hp
      rw [hp0] at hp
      cases h1 : dictLookup tkvs "position" with
      | some v =>
        rw [h1, Option.getD_some] at hp
        unfold posFieldOk at hposT
        rw [h1, hp] at hposT
        exact hposT
      | none =>
        rw [h1, Option.getD_none] at hp
        cases h2 : dictLookup kvs "position" with
        | some w =>
          rw [h2, Option.getD_some] at hp
          unfold posFieldOk at hpos
          rw [h2, hp] at hpos
          exact hpos
        | none =>
          rw [h2, Option.getD_none] at hp
          cases hp
          rfl
    · rw [if_neg ht] at hp
      cases hp
      rfl
  clear_value p0 pos
  cases pos with
  | obj pkvs =>
    obtain ⟨lkvs, hlk⟩ := locOk_obj _ (hPosOk pkvs rfl)
    simp only [isDict, if_true, jgetD, jget, hlk, ok_bind]
    split <;> rfl
  | null =>
    obtain ⟨lkvs, hlk⟩ := locOk_obj _ hld
    simp only [isDict, Bool.false_eq_true, if_false, pyGet, jget, jgetD, hlk,
      ok_bind, pyTruthy]
    first
    | (split <;> rfl)
    | rfl
  | bool b =>
    obtain ⟨lkvs, hlk⟩ := locOk_obj _ hld
    simp only [isDict, Bool.false_eq_true, if_false, pyGet, jget, jgetD, hlk,
      ok_bind, pyTruthy]
    first
    | (split <;> rfl)
    | rfl
  | num q2 =>
    obtain ⟨lkvs, hlk⟩ := locOk_obj _ hld
    simp only [isDict, Bool.false_eq_true, if_false, pyGet, jget, jgetD, hlk,
      ok_bind, pyTruthy]
    first
    | (split <;> rfl)
    | rfl
  | str s =>
    obtain ⟨lkvs, hlk⟩ := locOk_obj _ hld
    simp only [isDict, Bool.false_eq_true, if_false, pyGet, jget, jgetD, hlk,
      ok_bind, pyTruthy]
    first
    | (split <;> rfl)
    | rfl
  | arr xs =>
    obtain ⟨lkvs, hlk⟩ := locOk_obj _ hld
    simp only [isDict, Bool.false_eq_true, if_false, pyGet, jget, jgetD, hlk,
      ok_bind, pyTruthy]
    first
    | (split <;> rfl)
    | rfl

theorem assocUpd_values (m : List (JVal × JVal)) (k v : JVal) (p : JVal × JVal)
    (hp : p ∈ assocUpd m k v) : (∃ q ∈ m, p.2 = q.2) ∨ p.2 = v := by
  unfold assocUpd at hp
  split at hp
  · obtain ⟨q, hq, hpq⟩ := List.mem_map.1 hp
    by_cases hkq : keyEq q.1 k = true
    · right; rw [← hpq]; simp [hkq]
    · left; exact ⟨q, hq, by rw [← hpq]; simp [hkq]⟩
  · rcases List.mem_append.1 hp with h | h
    · exact Or.inl ⟨p, h, rfl⟩
    · simp at h
      exact Or.inr (by rw [h])

theorem buildTelemMap_ok (ts : List JVal) (acc : List (JVal × JVal))
    (ht : ∀ t ∈ ts, wfTelemRec t = true)
    (hacc : ∀ p ∈ acc, ∃ kvs, p.2 = JVal.obj kvs ∧ posFieldOk kvs = true) :
    ∃ tm, buildTelemMap ts acc = .ok tm ∧
      ∀ p ∈ tm, ∃ kvs, p.2 = JVal.obj kvs ∧ posFieldOk kvs = true := by
  induction ts generalizing acc with
  | nil => exact ⟨acc, rfl, hacc⟩
  | cons t ts ih =>
    have hwf := ht t (List.mem_cons_self t ts)
    cases t with
    | obj kvs =>
      simp only [wfTelemRec, Bool.and_eq_true] at hwf
      obtain ⟨hid, hpf⟩ := hwf
      cases hk : dictLookup kvs "objectId" with
      | none => rw [hk] at hid; cases hid
      | some k =>
        rw [hk] at hid
        simp only [Bool.not_eq_true'] at hid
        simp only [buildTelemMap, pySubscript, hk, hid, Bool.false_eq_true,
          if_false]
        refine ih (assocUpd acc k (JVal.obj kvs))
          (fun u hu => ht u (List.mem_cons_of_mem _ hu)) ?_
        intro p hp
        rcases assocUpd_values acc k (JVal.obj kvs) p hp with ⟨q2, hq2, he⟩ | he
        · obtain ⟨kvs2, h1, h2⟩ := hacc q2 hq2
          exact ⟨kvs2, he ▸ h1, h2⟩
        · exact ⟨kvs, he, hpf⟩
    | null => simp [wfTelemRec] at hwf
    | bool b => simp [wfTelemRec] at hwf
    | num q => simp [wfTelemRec] at hwf
    | str s => simp [wfTelemRec] at hwf
    | arr xs => simp [wfTelemRec] at hwf

theorem mapE_isOk (f : α → Except PyErr β) (l : List α)
    (h : ∀ x ∈ l, isOkE (f x) = true) : isOkE (mapE f l) = true := by
  induction l with
  | nil => rfl
  | cons x xs ih =>
    unfold mapE
    cases hf : f x with
    | error e =>
      have hx := h x (List.mem_cons_self x xs)
      rw [hf] at hx
      cases hx
    | ok y =>
      cases hm : mapE f xs with
      | error e =>
        have := ih (fun z hz => h z (List.mem_cons_of_mem _ hz))
        rw [hm] at this
        cases this
      | ok ys => rfl

theorem reconcile_tail_ok (ts objs : List JVal)
    (hts : ∀ t ∈ ts, wfTelemRec t = true)
    (ho : ∀ o ∈ objs, wfObjRec o = true) :
    isOkE (buildTelemMap ts [] >>= fun tm => mapE (mkRecord tm) objs) = true := by
  obtain ⟨tm, htm1, htm2⟩ :=
    buildTelemMap_ok ts [] hts (by intro p hp; cases hp)
  rw [htm1, ok_bind]
  apply mapE_isOk
  intro x hx
  have hwf := ho x hx
  cases x with
  | obj kvs => exact mkRecord_ok tm kvs htm2 hwf
  | null => simp [wfObjRec] at hwf
  | bool b => simp [wfObjRec] at hwf
  | num q => simp [wfObjRec] at hwf
  | str s => simp [wfObjRec] at hwf
  | arr xs => simp [wfObjRec] at hwf

/-- C2 (counterexample): reconcile does raise on malformed nested fields —
a null `licensePlate` raises `AttributeError` (`None.strip()`), a null
`odometer` raises `TypeError` (`None / 100`), an object record without
`objectId` raises `KeyError`, a telemetry record without `objectId` raises
`KeyError`, and a non-dict telemetry record raises `TypeError` — where the
claim says every such input degrades to the documented defaults. -/
theorem reconcile_never_raises_cex :
    get_positions (.arr [.obj [("objectId", .str "A"), ("licensePlate", .null)]])
      (.arr []) = .error .attributeError ∧
    get_positions (.arr [.obj [("objectId", .str "A"), ("odometer", .null)]])
      (.arr []) = .error .typeError ∧
    get_positions (.arr [.obj [("name", .str "x")]]) (.arr [])
      = .error .keyError ∧
    get_positions (.arr [.obj [("objectId", .str "A")]]) (.arr [.obj []])
      = .error .keyError ∧
    get_positions (.arr [.obj [("objectId", .str "A")]]) (.arr [.str "t"])
      = .error .typeError :=
  ⟨rfl, rfl, rfl, rfl, rfl⟩

/-- C2 (amended): reconcile never raises on inputs whose records are dicts
with a hashable `objectId`, whose `licensePlate` is absent or a string,
whose `odometer` is absent or numeric, and whose
`location`/`locationDescription` entries read on the address path are
absent or dicts; all other missing or malformed nested fields (missing
keys, non-dict or null `position` values, arbitrary `speed`/`ignition`/
`standStill` values) degrade to the documented defaults. -/
theorem reconcile_never_raises_amended (objects telemetry : List JVal)
    (ht : ∀ t ∈ telemetry, wfTelemRec t = true)
    (ho : ∀ o ∈ objects, wfObjRec o = true) :
    isOkE (get_positions (.arr objects) (.arr telemetry)) = true := by
  unfold get_positions
  cases objects with
  | nil => rfl
  | cons o os =>
    simp only [pyTruthy, List.isEmpty_cons, Bool.not_false, if_true,
      Bool.not_true, Bool.false_eq_true, if_false]
    by_cases htl : telemetry.isEmpty = true
    · have hnil : telemetry = [] := by
        cases telemetry with
        | nil => rfl
        | cons a as => cases htl
      subst hnil
      simp only [List.isEmpty_nil, Bool.not_true, Bool.false_eq_true, if_false,
        pyIter, ok_bind]
      exact reconcile_tail_ok [] (o :: os) (by intro t h; cases h) ho
    · have htl2 : telemetry.isEmpty = false := by
        simpa using htl
      simp only [htl2, Bool.not_false, if_true, pyIter, ok_bind]
      exact reconcile_tail_ok telemetry (o :: os) ht ho

/-- C2 (witness): a concrete well-formed pair of streams on which the
amended theorem certifies success. -/
theorem reconcile_never_raises_witness :
    isOkE (get_positions
      (.arr [.obj [("objectId", .str "A"), ("licensePlate", .str " AB ")]])
      (.arr [.obj [("objectId", .str "A"), ("speed", .num 3)]])) = true :=
  reconcile_never_raises_amended
    [.obj [("objectId", .str "A"), ("licensePlate", .str " AB ")]]
    [.obj [("objectId", .str "A"), ("speed", .num 3)]]
    (by decide) (by decide)

theorem filterE_eq_filter (f : α → Except PyErr Bool) (g : α → Bool) (l : List α)
    (h : ∀ x ∈ l, f x = .ok (g x)) : filterE f l = .ok (l.filter g) := by
  induction l with
  | nil => rfl
  | cons x xs ih =>
    unfold filterE
    rw [h x (List.mem_cons_self x xs),
      ih (fun z hz => h z (List.mem_cons_of_mem _ hz))]
    cases hg : g x <;> simp [List.filter_cons, hg]

theorem filter_disjoint_length (l : List α) (f g : α → Bool)
    (h : ∀ x ∈ l, ¬(f x = true ∧ g x = true)) :
    (l.filter f).length + (l.filter g).length ≤ l.length := by
  induction l with
  | nil => simp
  | cons x xs ih =>
    have hx := h x (List.mem_cons_self x xs)
    have ih' := ih (fun z hz => h z (List.mem_cons_of_mem _ hz))
    cases hf : f x with
    | true =>
      cases hg : g x with
      | true => exact absurd ⟨hf, hg⟩ hx
      | false =>
        simp only [List.filter_cons, hf, hg, if_true, Bool.false_eq_true,
          if_false, List.length_cons]
        omega
    | false =>
      cases hg : g x <;>
        simp only [List.filter_cons, hf, hg, if_true, Bool.false_eq_true,
          if_false, List.length_cons] <;>
        omega

theorem movingPred_wf (p : PositionRecord) (hb : isBoolJ p.stand_still = true)
    (hn : isNumJ p.speed = true) : movingPred p = .ok (movingB p) := by
  cases hss : p.stand_still with
  | bool b =>
    cases hsp : p.speed with
    | num q =>
      cases b <;>
        simp [movingPred, movingB, hss, hsp, pyTruthy, pyGtZero, pyGtZeroB]
    | null => rw [hsp] at hn; cases hn
    | bool c => rw [hsp] at hn; cases hn
    | str s => rw [hsp] at hn; cases hn
    | arr xs => rw [hsp] at hn; cases hn
    | obj kvs => rw [hsp] at hn; cases hn
  | null => rw [hss] at hb; cases hb
  | num q => rw [hss] at hb; cases hb
  | str s => rw [hss] at hb; cases hb
  | arr xs => rw [hss] at hb; cases hb
  | obj kvs => rw [hss] at hb; cases hb

theorem moving_stopped_disjoint (p : PositionRecord)
    (hb : isBoolJ p.stand_still = true) (hn : isNumJ p.speed = true) :
    ¬(movingB p = true ∧ stoppedB p = true) := by
  cases hss : p.stand_still with
  | bool b =>
    cases hsp : p.speed with
    | num q =>
      cases b <;>
        simp [movingB, stoppedB, hss, hsp, pyTruthy, pyGtZeroB, pyEqZero] <;>
        intro h1 h2 <;>
        simp [h2] at h1
    | null => rw [hsp] at hn; cases hn
    | bool c => rw [hsp] at hn; cases hn
    | str s => rw [hsp] at hn; cases hn
    | arr xs => rw [hsp] at hn; cases hn
    | obj kvs => rw [hsp] at hn; cases hn
  | null => rw [hss] at hb; cases hb
  | num q => rw [hss] at hb; cases hb
  | str s => rw [hss] at hb; cases hb
  | arr xs => rw [hss] at hb; cases hb
  | obj kvs => rw [hss] at hb; cases hb

/-- C7: on snapshots whose records carry deterministic (boolean
`stand_still`, numeric `speed`) values, the moving and stopped filters
succeed, select disjoint subsets so their counts sum to at most the
snapshot's position count, preserve the original record order (the
filtered lists are sublists), set `count` to the filtered length, and
leave every other field of the snapshot untouched (the underlying
snapshot value itself is never mutated — the filters build new views);
the plate/number filter likewise returns an order-preserving sublist. -/
theorem filter_laws (v : SnapshotView)
    (h : ∀ p ∈ v.positions, isBoolJ p.stand_still = true ∧ isNumJ p.speed = true) :
    ∃ mv, movingFilterView v = .ok mv ∧
      mv.count + (stoppedFilterView v).count ≤ v.positions.length ∧
      mv.count = mv.positions.length ∧
      (stoppedFilterView v).count = (stoppedFilterView v).positions.length ∧
      mv.positions.Sublist v.positions ∧
      (stoppedFilterView v).positions.Sublist v.positions ∧
      mv.last_update = v.last_update ∧
      mv.cache_age_seconds = v.cache_age_seconds ∧
      mv.error = v.error ∧
      (stoppedFilterView v).last_update = v.last_update ∧
      (stoppedFilterView v).cache_age_seconds = v.cache_age_seconds ∧
      (stoppedFilterView v).error = v.error ∧
      ∀ plate number, (vehicleFilter plate number v.positions).Sublist v.positions := by
  have hfe : filterE movingPred v.positions = .ok (v.positions.filter movingB) :=
    filterE_eq_filter _ _ _ (fun x hx => movingPred_wf x (h x hx).1 (h x hx).2)
  have hmv : movingFilterView v =
      .ok { v with positions := v.positions.filter movingB,
                   count := (v.positions.filter movingB).length } := by
    unfold movingFilterView
    rw [hfe]
  refine ⟨_, hmv, ?_, rfl, rfl, ?_, ?_, rfl, rfl, rfl, rfl, rfl, rfl, ?_⟩
  · exact filter_disjoint_length _ _ _
      (fun x hx => moving_stopped_disjoint x (h x hx).1 (h x hx).2)
  · exact List.filter_sublist _
  · exact List.filter_sublist _
  · intro plate number
    unfold vehicleFilter
    split
    · exact List.filter_sublist _
    · split
      · exact List.filter_sublist _
      · exact List.Sublist.refl _

/-- C7 (witness): the filter laws at a concrete three-record snapshot
(one moving, one stopped, one with `stand_still = False` and `speed = 0`,
which belongs to the moving side). -/
theorem filter_laws_witness :
    ∃ mv, movingFilterView sampleView = .ok mv ∧
      mv.count + (stoppedFilterView sampleView).count ≤
        sampleView.positions.length ∧
      mv.count = mv.positions.length ∧
      (stoppedFilterView sampleView).count =
        (stoppedFilterView sampleView).positions.length ∧
      mv.positions.Sublist sampleView.positions ∧
      (stoppedFilterView sampleView).positions.Sublist sampleView.positions ∧
      mv.last_update = sampleView.last_update ∧
      mv.cache_age_seconds = sampleView.cache_age_seconds ∧
      mv.error = sampleView.error ∧
      (stoppedFilterView sampleView).last_update = sampleView.last_update ∧
      (stoppedFilterView sampleView).cache_age_seconds =
        sampleView.cache_age_seconds ∧
      (stoppedFilterView sampleView).error = sampleView.error ∧
      ∀ plate number,
        (vehicleFilter plate number sampleView.positions).Sublist
          sampleView.positions :=
  filter_laws sampleView (by decide)

theorem check_auth_true_iff (apiKey : String) (req : Request) (hk : apiKey ≠ "") :
    check_auth apiKey req = true ↔
      ((strStartsWith req.authHeader "Bearer " = true ∧
        strDrop req.authHeader 7 = apiKey) ∨
       getFirst (parseQsl (urlsplitPathQuery req.path).2) "api_key" = some apiKey) := by
  have hne : apiKey.data.isEmpty = false := str_ne_empty_data apiKey hk
  unfold check_auth
  rw [hne]
  simp only [Bool.false_eq_true, if_false]
  by_cases hb : (strStartsWith req.authHeader "Bearer " &&
      pyCompareDigest (strDrop req.authHeader 7) apiKey) = true
  · have hb' := hb
    simp only [Bool.and_eq_true, pyCompareDigest, decide_eq_true_eq] at hb'
    simp only [hb, if_true, true_iff]
    exact Or.inl hb'
  · have hb2 : (strStartsWith req.authHeader "Bearer " &&
        pyCompareDigest (strDrop req.authHeader 7) apiKey) = false := by
      simpa using hb
    simp only [hb2, Bool.false_eq_true, if_false]
    have hbf : ¬(strStartsWith req.authHeader "Bearer " = true ∧
        strDrop req.authHeader 7 = apiKey) := by
      rintro ⟨h1, h2⟩
      exact hb (by simp [h1, pyCompareDigest, h2])
    cases hq : getFirst (parseQsl (urlsplitPathQuery req.path).2) "api_key" with
    | none => simp [hbf]
    | some k =>
      simp only [Bool.and_eq_true, pyCompareDigest, decide_eq_true_eq,
        Bool.not_eq_true']
      constructor
      · rintro ⟨-, h2⟩
        exact Or.inr (by rw [h2])
      · rintro (hbear | hqe)
        · exact absurd hbear hbf
        · injection hqe with h2
          exact ⟨str_ne_empty_data k (by rw [h2]; exact hk), h2⟩

theorem do_GET_authed_not401 (apiKey : String) (c : DataCache) (now : ℚ)
    (req : Request) (hp : (req.path == "/health") = false)
    (hca : check_auth apiKey req = true) :
    do_GET apiKey c now req ≠ .ok (401, .errorMsg unauthorizedMsg) := by
  unfold do_GET
  rw [hp, hca]
  simp only [Bool.false_eq_true, if_false, Bool.not_true]
  split
  · simp
  · split
    · simp
    · split
      · split <;> simp
      · split
        · simp
        · split <;> simp

/-- C8 (counterexample): with an API key configured, a `HEAD` request to
`/positions` with no credentials is answered 404 — the handler never runs
the authentication check for `HEAD` — and an `OPTIONS` request is answered
200 unconditionally, where the claim requires every request to a
non-`/health` endpoint with missing credentials to receive 401. -/
theorem auth_gate_cex :
    do_HEAD DataCache.start ⟨"/positions", ""⟩ = (404, .empty) ∧
    do_OPTIONS = (200, .empty) :=
  ⟨rfl, rfl⟩

/-- C8 (amended): for GET requests with a configured non-empty API key,
any path other than exactly `/health` is answered 401 with the documented
error body iff neither the `Authorization: Bearer` token nor the first
`api_key` query parameter equals the key (the comparison is functionally
string equality, executed in constant time in the source); GET
authentication is bypassed only for `/health`; `HEAD` requests never check
authentication (non-`/health` paths get 404) and `OPTIONS` always
answers 200. -/
theorem auth_gate_amended (apiKey : String) (c : DataCache) (now : ℚ)
    (p hdr : String) (hk : apiKey ≠ "") (hp : p ≠ "/health") :
    (do_GET apiKey c now ⟨p, hdr⟩ = .ok (401, .errorMsg unauthorizedMsg) ↔
      ¬((strStartsWith hdr "Bearer " = true ∧ strDrop hdr 7 = apiKey) ∨
        getFirst (parseQsl (urlsplitPathQuery p).2) "api_key" = some apiKey)) ∧
    do_HEAD c ⟨p, hdr⟩ = (404, .empty) ∧
    do_OPTIONS = (200, .empty) := by
  have hpb : (p == "/health") = false := by
    rw [beq_eq_false_iff_ne]
    exact hp
  refine ⟨⟨?_, ?_⟩, ?_, rfl⟩
  · intro h hauth
    have hca : check_auth apiKey ⟨p, hdr⟩ = true :=
      (check_auth_true_iff apiKey ⟨p, hdr⟩ hk).mpr hauth
    exact do_GET_authed_not401 apiKey c now ⟨p, hdr⟩ hpb hca h
  · intro hnauth
    have hca : check_auth apiKey ⟨p, hdr⟩ = false := by
      cases hc : check_auth apiKey ⟨p, hdr⟩ with
      | false => rfl
      | true =>
        exact absurd ((check_auth_true_iff apiKey ⟨p, hdr⟩ hk).mp hc) hnauth
    unfold do_GET
    rw [hpb, hca]
    rfl
  · unfold do_HEAD
    rw [hpb]
    rfl

/-- C8 (witness): with key `"k"` configured, a GET request for
`/positions` carrying no credentials is rejected with the 401 body. -/
theorem auth_gate_witness :
    do_GET "k" DataCache.start 0 ⟨"/positions", ""⟩ =
      .ok (401, .errorMsg unauthorizedMsg) :=
  ((auth_gate_amended "k" DataCache.start 0 "/positions" "" (by decide)
    (by decide)).1).mpr (by decide)

/-- C10: on `GET /positions/vehicle` (authenticated), when both a
non-empty `plate` and a `number` query parameter are supplied only the
plate filter is applied — the response is fully determined by `plate` and
`number` is ignored; when neither parameter is supplied (an
empty-string-valued parameter is dropped by the query parser, hence counts
as not supplied), the full unfiltered snapshot is returned and `count`
equals the total number of positions. -/
theorem vehicle_query (apiKey hdr : String) (c : DataCache) (now : ℚ)
    (p : String) (hauth : check_auth apiKey ⟨p, hdr⟩ = true)
    (hpath : (urlsplitPathQuery p).1 = "/positions/vehicle") :
    (∀ pl n, getFirst (parseQsl (urlsplitPathQuery p).2) "plate" = some pl →
      pl ≠ "" →
      getFirst (parseQsl (urlsplitPathQuery p).2) "number" = some n →
      do_GET apiKey c now ⟨p, hdr⟩ =
        .ok (200, .snapshot
          { c.get now with
            positions := (c.get now).positions.filter
              (fun r => strContains (strUpper r.license_plate) (strUpper pl)),
            count := ((c.get now).positions.filter
              (fun r => strContains (strUpper r.license_plate)
                (strUpper pl))).length })) ∧
    (optStrTruthy (getFirst (parseQsl (urlsplitPathQuery p).2) "plate") = false →
     optStrTruthy (getFirst (parseQsl (urlsplitPathQuery p).2) "number") = false →
      do_GET apiKey c now ⟨p, hdr⟩ = .ok (200, .snapshot (c.get now))) := by
  have hpb : (p == "/health") = false := by
    rw [beq_eq_false_iff_ne]
    intro he
    rw [he] at hpath
    exact absurd hpath (by decide)
  constructor
  · intro pl n hpl hne hn
    unfold do_GET
    rw [hpb, hauth]
    simp only [Bool.false_eq_true, if_false, Bool.not_true, hpath, hpl, hn]
    have htr : optStrTruthy (some pl) = true := by
      simp [optStrTruthy, str_ne_empty_data pl hne]
    unfold vehicleFilter
    rw [htr]
    rfl
  · intro h1 h2
    unfold do_GET
    rw [hpb, hauth]
    simp only [Bool.false_eq_true, if_false, Bool.not_true, hpath]
    unfold vehicleFilter
    rw [h1, h2]
    rfl

/-- C10 (witness): concrete requests against the startup cache — with both
`plate=ab` and `number=9` supplied the response is the plate-filtered
(empty) snapshot, and with no parameters the full snapshot is returned. -/
theorem vehicle_query_witness :
    do_GET "" DataCache.start 0 ⟨"/positions/vehicle?plate=ab&number=9", ""⟩ =
      .ok (200, .snapshot { positions := [], count := 0, last_update := none,
                            cache_age_seconds := none, error := none }) ∧
    do_GET "" DataCache.start 0 ⟨"/positions/vehicle", ""⟩ =
      .ok (200, .snapshot (DataCache.start.get 0)) := by
  constructor
  · exact (vehicle_query "" "" DataCache.start 0
      "/positions/vehicle?plate=ab&number=9" (by decide) (by decide)).1
      "ab" "9" (by decide) (by decide) (by decide)
  · exact (vehicle_query "" "" DataCache.start 0 "/positions/vehicle"
      (by decide) (by decide)).2 (by decide) (by decide)

theorem resolvedPos_nondict_iff (tkvs kvs : List (String × JVal)) :
    isDict (resolvedPos tkvs kvs) = false ↔
      pyTruthy (resolvedPosEntry tkvs kvs) = true ∧
      isDict (resolvedPosEntry tkvs kvs) = false := by
  unfold resolvedPos
  by_cases ht : pyTruthy (resolvedPosEntry tkvs kvs) = true
  · simp [ht]
  · simp [ht, isDict]

theorem pyGet_ok_val (x d v : JVal) (k : String) (h : pyGet x k d = .ok v) :
    v = jgetD x k d := by
  cases x <;> simp [pyGet, jgetD] at h ⊢ <;> exact h.symm

theorem mkRecord_resolution (tm : List (JVal × JVal))
    (kvs : List (String × JVal)) (oid : JVal) (tkvs : List (String × JVal))
    (r : PositionRecord)
    (hoid : dictLookup kvs "objectId" = some oid)
    (htel : (assocGet tm oid).getD (.obj []) = .obj tkvs)
    (h : mkRecord tm (.obj kvs) = .ok r) :
    (isDict (resolvedPos tkvs kvs) = true →
      r.latitude = jget (resolvedPos tkvs kvs) "latitude" ∧
      r.longitude = jget (resolvedPos tkvs kvs) "longitude" ∧
      r.address = jgetD (jgetD (resolvedPos tkvs kvs) "location" (.obj []))
        "address" (.str "")) ∧
    (isDict (resolvedPos tkvs kvs) = false →
      r.latitude = .null ∧ r.longitude = .null ∧
      r.address = jgetD (jgetD (JVal.obj kvs) "locationDescription" (.obj []))
        "address" (.str "")) ∧
    (isDict (resolvedPos tkvs kvs) = false ↔
      pyTruthy (resolvedPosEntry tkvs kvs) = true ∧
      isDict (resolvedPosEntry tkvs kvs) = false) := by
  simp only [mkRecord, pySubscript, hoid, htel, except_bind_ok, ite_ok_iff,
    pyGet, pure_eq_ok, Except.ok.injEq, exists_eq_left, exists_eq_left'] at h
  have hfold1 : (dictLookup tkvs "position").getD
      ((dictLookup kvs "position").getD (JVal.obj [])) =
      resolvedPosEntry tkvs kvs := rfl
  rw [hfold1] at h
  have hfold2 : (if pyTruthy (resolvedPosEntry tkvs kvs) = true
      then resolvedPosEntry tkvs kvs else JVal.obj []) =
      resolvedPos tkvs kvs := rfl
  rw [hfold2] at h
  rcases h with ⟨-, hfalse⟩ | ⟨hu, h⟩
  · exact Except.noConfusion hfalse
  obtain ⟨lp, hlp, h⟩ := h
  rcases h with ⟨hd, h⟩ | ⟨hd, h⟩
  · obtain ⟨addr, haddr, h⟩ := h
    rcases h with ⟨ht0, h⟩ | ⟨ht0, h⟩ <;>
      obtain ⟨okm, hokm, h⟩ := h <;>
      rw [← h] <;>
      exact ⟨fun hd' => ⟨by simp [hd'], by simp [hd'],
               pyGet_ok_val _ _ _ _ haddr⟩,
             fun hd' => by rw [hd] at hd'; exact Bool.noConfusion hd',
             resolvedPos_nondict_iff tkvs kvs⟩
  · obtain ⟨addr, haddr, h⟩ := h
    rcases h with ⟨ht0, h⟩ | ⟨ht0, h⟩ <;>
      obtain ⟨okm, hokm, h⟩ := h <;>
      rw [← h] <;>
      exact ⟨fun hd' => absurd hd' hd,
             fun hd' => ⟨by simp [hd], by simp [hd],
               pyGet_ok_val _ _ _ _ haddr⟩,
             resolvedPos_nondict_iff tkvs kvs⟩

/-- C1 (amended): for every object record processed by reconcile
(`get_positions`) — universally in the object's and the matched telemetry
record's contents — the resolved position is the telemetry record's
`position` entry whenever that key is present (a present-but-falsy entry
is replaced by the empty dict without falling back to the object's
position), otherwise the object's `position` entry; latitude/longitude and
the address (through `location.address`, defaulting to the empty string,
never to `locationDescription`) are read from the resolved position
exactly when it is a dict, and the address falls back to the object's own
`locationDescription.address` exactly when the resolved entry is truthy
and not a dict. -/
theorem reconcile_resolution_amended (objects telemetry : List JVal)
    (res : List PositionRecord)
    (h : get_positions (.arr objects) (.arr telemetry) = .ok res) :
    List.Forall₂ (resolutionSpec telemetry) objects res := by
  unfold get_positions at h
  cases objects with
  | nil =>
    cases h
    exact List.Forall₂.nil
  | cons o os =>
    simp only [pyTruthy, List.isEmpty_cons, Bool.not_false, if_true,
      Bool.not_true, Bool.false_eq_true, if_false, except_bind_ok] at h
    obtain ⟨ts, hts, h⟩ := h
    obtain ⟨tm, htm, h⟩ := h
    obtain ⟨objs, hobjs, h⟩ := h
    have hobjs' : objs = o :: os := by
      cases hpt : telemetry.isEmpty <;>
        simp [hpt, pyIter] at hobjs <;> exact hobjs.symm
    rw [hobjs'] at h
    have hts' : ts = telemetry := by
      by_cases hem : telemetry.isEmpty = true
      · have hnil : telemetry = [] := by
          cases telemetry with
          | nil => rfl
          | cons a as => cases hem
        subst hnil
        simpa [pyIter] using hts.symm
      · have hem2 : telemetry.isEmpty = false := by simpa using hem
        simp only [hem2, Bool.not_false, if_true, pyIter,
          Except.ok.injEq] at hts
        exact hts.symm
    subst hts'
    have hall := mapE_forall₂ (mkRecord tm) (o :: os) res h
    refine List.Forall₂.imp ?_ hall
    intro a b hab
    intro tm' kvs oid tkvs htm' hka hoid htel
    have htmeq : tm' = tm := by
      rw [htm] at htm'
      exact (Except.ok.inj htm').symm
    subst htmeq
    subst hka
    exact mkRecord_resolution tm' kvs oid tkvs b hoid htel hab

/-- C1 (witness): the resolution rule applied to a concrete object whose
truthy non-dict position (`"x"`) sends the address to its
`locationDescription` (`"X"`) and nulls the coordinates, with a matched
telemetry record lacking a `position` key. -/
theorem reconcile_resolution_witness :
    List.Forall₂ (resolutionSpec [c1tel]) [c1obj] [c1rec] ∧
    c1rec.address = .str "X" ∧ c1rec.latitude = .null :=
  ⟨reconcile_resolution_amended [c1obj] [c1tel] [c1rec] rfl, rfl, rfl⟩
